import Mathlib

/-!
Shallow embedding of the player evaluation dashboard (src/app.py).

The two pandas DataFrames are modelled as lists of typed rows together with
Boolean column-presence flags for exactly those columns whose presence the
code tests at frame level. A cell holding NaN is modelled as Option.none;
all the pandas operations the code relies on treat NaN the same way they
treat a genuinely absent value inside a filter (isin, ==, >=, str.contains
with na=False all reject NaN), so none faithfully captures the behaviour of
every dataframe-level operation the code performs.
-/

namespace PlayerEval

/-- One row of the season-summary dataset (summary_stats). A none cell models
NaN. The source column named with the Swedish letter å is spelled alder here. -/
structure SRow where
  name : Option String := none
  team : Option String := none
  position : Option String := none
  year : Option String := none
  alder : Option ℚ := none
  market_value : Option ℚ := none
  minuter : Option ℚ := none
  matcher : Option ℚ := none
  usage_rate : Option ℚ := none
  starter_rate : Option ℚ := none
  gf90 : Option ℚ := none
  ga90 : Option ℚ := none
  pm90 : Option ℚ := none
  impact_combo90 : Option ℚ := none
  on_off_diff : Option ℚ := none
  on_off_total : Option ℚ := none
  impact90 : Option ℚ := none
deriving DecidableEq

/-- One row of the per-match dataset (players_stats). A none cell models NaN. -/
structure PRow where
  name : Option String := none
  team : Option String := none
  year : Option String := none
  match_id_short : Option String := none
  match_start_datetime : Option ℚ := none
  player_type : Option String := none
  minutes_played : Option ℚ := none
  start_minute : Option ℚ := none
  end_minute : Option ℚ := none
  match_length : Option ℚ := none
  goals : Option ℚ := none
  assists : Option ℚ := none
  yellow_card : Option ℚ := none
  red_card : Option ℚ := none
  gf_on : Option ℚ := none
  ga_on : Option ℚ := none
  on_goal_diff : Option ℚ := none
  off_goal_diff : Option ℚ := none
  plus_minus_raw : Option ℚ := none
  plus_minus_impact : Option ℚ := none
  plus_minus_per90 : Option ℚ := none
  impact_combo90 : Option ℚ := none
  on_off_diff : Option ℚ := none
  impact90 : Option ℚ := none
deriving DecidableEq

/-- The season-summary dataframe: rows plus presence flags for the columns
whose presence app.py tests (year, team, minuter, impact90). -/
structure SummaryFrame where
  hasYear : Bool := true
  hasTeam : Bool := true
  hasMinuter : Bool := true
  hasImpact90 : Bool := true
  rows : List SRow := []
deriving DecidableEq

/-- The per-match dataframe: rows plus presence flags for the columns whose
presence app.py tests (year, team, impact90). -/
structure PlayersFrame where
  hasYear : Bool := true
  hasTeam : Bool := true
  hasImpact90 : Bool := true
  rows : List PRow := []
deriving DecidableEq

/-!
Derived-metric normalizer, app.py lines 44-49: whole-column backfill of
impact90 from plus_minus_per90 (match level) respectively pm90 (summary
level), applied only when the impact90 column is absent.
-/

/-- Lines 45-46: if impact90 is not among the match-dataset columns, assign
the plus_minus_per90 column to it. -/
def normalizePlayers (players_enriched : PlayersFrame) : PlayersFrame :=
  if players_enriched.hasImpact90 then players_enriched
  else
    { players_enriched with
      hasImpact90 := true
      rows := players_enriched.rows.map fun r => { r with impact90 := r.plus_minus_per90 } }

/-- Lines 48-49: if impact90 is not among the summary-dataset columns, assign
the pm90 column to it. -/
def normalizeSummary (df : SummaryFrame) : SummaryFrame :=
  if df.hasImpact90 then df
  else
    { df with
      hasImpact90 := true
      rows := df.rows.map fun r => { r with impact90 := r.pm90 } }

/-!
Filter engine, app.py lines 113-135. The widget state feeding the engine is
a FilterState; the engine applies the year and team filters to both frames
and the name, position and minimum-minutes filters to the summary frame only.
-/

/-- Sidebar filter state (lines 55-107): season and team multiselects, the
name search text, the position choice and the minimum-minutes slider. -/
structure FilterState where
  selected_years : List String := []
  selected_teams : List String := []
  name_search : String := ""
  position_filter : String := "All"
  min_minutes : ℕ := 0
deriving DecidableEq

/-- Byte-wise order on character lists, the order pandas uses on strings. -/
def charListLt : List Char → List Char → Bool
  | [], [] => false
  | [], _ :: _ => true
  | _ :: _, [] => false
  | a :: as, b :: bs =>
    if a.toNat < b.toNat then true
    else if b.toNat < a.toNat then false
    else charListLt as bs

/-- Non-strict string order derived from the strict one. -/
def strLeB (a b : String) : Bool := !(charListLt b.data a.data)

/-- Insert an element into a list in front of the first element it is le to. -/
def insertLe {α : Type} (le : α → α → Bool) (a : α) : List α → List α
  | [] => [a]
  | b :: t => if le a b then a :: b :: t else b :: insertLe le a t

/-- Insertion sort by a Boolean order; models the pandas sorts, whose exact
algorithm the code never observes beyond the resulting order. -/
def sortLe {α : Type} (le : α → α → Bool) : List α → List α
  | [] => []
  | a :: t => insertLe le a (sortLe le t)

/-- Pandas Series.isin against a list of strings: NaN is never a member. -/
def isinStr (v : Option String) (sel : List String) : Bool :=
  match v with
  | none => false
  | some s => sel.contains s

/-- Lower-case a string, character by character (case=False in str.contains). -/
def lowerStr (s : String) : String :=
  ⟨s.data.map Char.toLower⟩

/-- Substring test on character lists: some suffix of the haystack starts
with the pattern. The empty pattern is contained in everything. -/
def listContainsSub (pat : List Char) : List Char → Bool
  | [] => pat.isEmpty
  | c :: t => pat.isPrefixOf (c :: t) || listContainsSub pat t

/-- Pandas str.contains with case=False and na=False: case-insensitive
substring match, NaN names never match (line 128). -/
def strContainsCI (v : Option String) (pat : String) : Bool :=
  match v with
  | none => false
  | some s => listContainsSub (lowerStr pat).data (lowerStr s).data

/-- Pandas comparison minuter >= min_minutes: NaN compares false (line 135). -/
def minuterGe (v : Option ℚ) (m : ℕ) : Bool :=
  match v with
  | none => false
  | some q => decide ((m : ℚ) ≤ q)

/-- Keep only the summary rows satisfying the predicate. -/
def SummaryFrame.filterRows (f : SummaryFrame) (p : SRow → Bool) : SummaryFrame :=
  { f with rows := f.rows.filter p }

/-- Keep only the match rows satisfying the predicate. -/
def PlayersFrame.filterRows (f : PlayersFrame) (p : PRow → Bool) : PlayersFrame :=
  { f with rows := f.rows.filter p }

/-- The engine of lines 113-135. The year filter runs when the year column is
present in both frames (lines 58-67 leave selected_years unset otherwise) and
the selection is non-empty (line 117); likewise the team filter (line 122).
The name filter runs when the search text is non-empty (line 126), the
position filter when the choice is not the sentinel All (line 131), and the
minimum-minutes filter whenever the minuter column is present (line 134). -/
def applyFilters (df : SummaryFrame) (players_enriched : PlayersFrame)
    (fs : FilterState) : SummaryFrame × PlayersFrame :=
  let yearsActive := df.hasYear && players_enriched.hasYear && !fs.selected_years.isEmpty
  let teamsActive := df.hasTeam && players_enriched.hasTeam && !fs.selected_teams.isEmpty
  let fdf1 := if yearsActive then df.filterRows (fun r => isinStr r.year fs.selected_years) else df
  let fp1 := if yearsActive then
      players_enriched.filterRows (fun r => isinStr r.year fs.selected_years)
    else players_enriched
  let fdf2 := if teamsActive then fdf1.filterRows (fun r => isinStr r.team fs.selected_teams) else fdf1
  let fp2 := if teamsActive then fp1.filterRows (fun r => isinStr r.team fs.selected_teams) else fp1
  let fdf3 := if fs.name_search ≠ "" then
      fdf2.filterRows (fun r => strContainsCI r.name fs.name_search)
    else fdf2
  let fdf4 := if fs.position_filter ≠ "All" then
      fdf3.filterRows (fun r => r.position == some fs.position_filter)
    else fdf3
  let fdf5 := if fdf4.hasMinuter then
      fdf4.filterRows (fun r => minuterGe r.minuter fs.min_minutes)
    else fdf4
  (fdf5, fp2)

/-- The match-dataset part of the engine in isolation: it reads only the
season and team selections (plus the two frames). -/
def filterPlayersYearTeam (df : SummaryFrame) (players_enriched : PlayersFrame)
    (selected_years selected_teams : List String) : PlayersFrame :=
  let yearsActive := df.hasYear && players_enriched.hasYear && !selected_years.isEmpty
  let teamsActive := df.hasTeam && players_enriched.hasTeam && !selected_teams.isEmpty
  let fp1 := if yearsActive then
      players_enriched.filterRows (fun r => isinStr r.year selected_years)
    else players_enriched
  let fp2 := if teamsActive then fp1.filterRows (fun r => isinStr r.team selected_teams) else fp1
  fp2

/-!
Default column lists of the summary table (lines 145-151) and the comparison
table (lines 551-557), and their resolution against the actual schema.
-/

/-- Line 145: the declarative default column list of the summary table. -/
def default_cols : List String :=
  ["name", "team", "position", "year", "minuter", "matcher",
   "usage_rate", "starter_rate",
   "impact_combo90", "pm90", "gf90", "ga90"]

/-- Line 551: the declarative default column list of the comparison table. -/
def default_cols_pc : List String :=
  ["name", "team", "position", "year", "minuter", "matcher",
   "usage_rate", "starter_rate",
   "impact90", "pm90", "gf90", "ga90"]

/-- Lines 151 and 557: keep the defaults that are present among the frame
columns, in the order of the default list. -/
def availableCols (defaults cols : List String) : List String :=
  defaults.filter fun c => decide (c ∈ cols)

/-!
Impact-vs-consistency aggregation, lines 201-216: group the filtered match
rows by player name and aggregate the chosen metric.
-/

/-- One row of impact_summary. Pandas agg reports impact_std, the sample
standard deviation (ddof 1); the embedding keeps impact_var, its square,
so the value stays rational; the standard deviation is Real.sqrt of it.
A none entry models the NaN that pandas produces on too small a sample. -/
structure AggRow where
  name : String
  impact_mean : Option ℚ
  impact_var : Option ℚ
  matches_used : ℕ
  minutes_total : ℚ
deriving DecidableEq

/-- The aggregation of lines 204-209 for one group key: mean and sample
variance of the metric over the rows of that player (pandas skips NaN and
yields NaN on an empty sample for mean, on fewer than two values for std),
the count of non-NaN metric values, and the NaN-skipping sum of minutes. -/
def impactAgg (metric : PRow → Option ℚ) (rows : List PRow) (nm : String) : AggRow :=
  let g := rows.filter fun r => r.name == some nm
  let vals := g.filterMap metric
  let n := vals.length
  let mean := vals.sum / (n : ℚ)
  { name := nm
    impact_mean := if n = 0 then none else some mean
    impact_var := if n < 2 then none
      else some ((vals.map fun x => (x - mean) ^ 2).sum / ((n : ℚ) - 1))
    matches_used := n
    minutes_total := (g.filterMap PRow.minutes_played).sum }

/-- Lines 201-211: groupby name (NaN keys dropped, keys sorted ascending)
followed by the aggregation. -/
def impact_summary (metric : PRow → Option ℚ) (rows : List PRow) : List AggRow :=
  (sortLe strLeB (rows.filterMap PRow.name).dedup).map (impactAgg metric rows)

/-- Lines 213-216: keep the aggregated players whose total minutes reach the
scatter threshold and whose mean is not NaN. -/
def scatterRows (metric : PRow → Option ℚ) (rows : List PRow)
    (min_minutes_scatter : ℕ) : List AggRow :=
  (impact_summary metric rows).filter fun a =>
    decide ((min_minutes_scatter : ℚ) ≤ a.minutes_total) && a.impact_mean.isSome

/-!
Profile view player selection, lines 247-256.
-/

/-- Line 247: the name column sorted ascending; pandas sort_values puts NaN
entries last and tolist keeps them. -/
def playerNames (filtered_df : SummaryFrame) : List (Option String) :=
  ((sortLe strLeB (filtered_df.rows.filterMap SRow.name)).map some)
    ++ List.replicate (filtered_df.rows.countP fun r => r.name.isNone) none

/-- Streamlit selectbox with a positional default index: returns the option
at that index, and raises (none) when the index is outside the options. -/
def selectbox (options : List (Option String)) (index : ℕ) : Option (Option String) :=
  if h : index < options.length then some (options.get ⟨index, h⟩) else none

/-- Outcome of the selection block of lines 249-256. -/
inductive ProfileOut where
  | emptyWarning
  | raised
  | profileFor (nm : Option String)
deriving DecidableEq

/-- Lines 249-256: warn on an empty roster, otherwise select with the fixed
default index 6 into the sorted name list. -/
def profileSelect (filtered_df : SummaryFrame) : ProfileOut :=
  let player_names := playerNames filtered_df
  if player_names.length = 0 then .emptyWarning
  else
    match selectbox player_names 6 with
    | none => .raised
    | some nm => .profileFor nm

/-!
Profile metric cards, lines 266-293. The selected row player_row is a pandas
Series; Series.get distinguishes an absent label (Python None, when the
column is missing from the frame) from a present NaN value, so the cards are
modelled over three-valued cells.
-/

/-- A numeric cell of the selected player row: column absent, NaN, or a value. -/
inductive Cell where
  | absent
  | nan
  | val (q : ℚ)
deriving DecidableEq

/-- A text cell of the selected player row. -/
inductive CellS where
  | absent
  | nan
  | strv (s : String)
deriving DecidableEq

/-- The cells of player_row that the metric cards of lines 266-293 read. -/
structure PlayerCells where
  team : CellS := .absent
  position : CellS := .absent
  alder : Cell := .absent
  market_value : Cell := .absent
  minuter : Cell := .absent
  matcher : Cell := .absent
  usage_rate : Cell := .absent
  starter_rate : Cell := .absent
  impact90 : Cell := .absent
  pm90 : Cell := .absent
  on_off_total : Cell := .absent
deriving DecidableEq

/-- What a metric card displays. -/
inductive Disp where
  | pynone
  | txt (s : String)
  | intv (n : ℤ)
  | ratv (q : ℚ)
  | nan
  | dash
deriving DecidableEq

/-- A card either shows a value or raises an exception. -/
inductive CardOut where
  | shown (d : Disp)
  | raised
deriving DecidableEq

/-- Python int() on a rational: truncation toward zero. -/
def pyInt (q : ℚ) : ℤ :=
  if 0 ≤ q then ⌊q⌋ else ⌈q⌉

/-- Python round to the nearest integer, ties to even. -/
def roundHE (x : ℚ) : ℤ :=
  let f := ⌊x⌋
  if x - f < 1 / 2 then f
  else if 1 / 2 < x - f then f + 1
  else if f % 2 = 0 then f else f + 1

/-- Python round(x, 2). -/
def round2 (q : ℚ) : ℚ :=
  (roundHE (q * 100) : ℚ) / 100

/-- Line 268: the team card displays the raw cell and never raises. -/
def teamCard (s : PlayerCells) : CardOut :=
  .shown (match s.team with
    | .absent => .pynone
    | .nan => .nan
    | .strv x => .txt x)

/-- Line 269: the position card displays the raw cell and never raises. -/
def positionCard (s : PlayerCells) : CardOut :=
  .shown (match s.position with
    | .absent => .pynone
    | .nan => .nan
    | .strv x => .txt x)

/-- Lines 271-272: pd.isna guards the age; an absent or NaN age shows the
dash placeholder, a value is truncated to an integer. -/
def ageCard (s : PlayerCells) : CardOut :=
  match s.alder with
  | .absent => .shown .dash
  | .nan => .shown .dash
  | .val q => .shown (.intv (pyInt q))

/-- Line 274: int() is applied to the minutes cell with no guard, so an
absent or NaN cell raises. -/
def minutesCard (s : PlayerCells) : CardOut :=
  match s.minuter with
  | .absent => .raised
  | .nan => .raised
  | .val q => .shown (.intv (pyInt q))

/-- Lines 276-277: pd.isna guards the market value like the age. -/
def marketValueCard (s : PlayerCells) : CardOut :=
  match s.market_value with
  | .absent => .shown .dash
  | .nan => .shown .dash
  | .val q => .shown (.intv (pyInt q))

/-- Line 283: int() is applied to the matches cell with no guard. -/
def matchesCard (s : PlayerCells) : CardOut :=
  match s.matcher with
  | .absent => .raised
  | .nan => .raised
  | .val q => .shown (.intv (pyInt q))

/-- Rounding card over a cell read with Series.get and default 0 (lines
284-293): an absent column falls back to 0, a NaN value rounds to NaN. -/
def getRoundCard (c : Cell) : CardOut :=
  match c with
  | .absent => .shown (.ratv (round2 0))
  | .nan => .shown .nan
  | .val q => .shown (.ratv (round2 q))

/-- Line 284: usage rate card. -/
def usageRateCard (s : PlayerCells) : CardOut := getRoundCard s.usage_rate

/-- Line 285: starter rate card. -/
def starterRateCard (s : PlayerCells) : CardOut := getRoundCard s.starter_rate

/-- Line 291: impact per 90 card. -/
def impact90Card (s : PlayerCells) : CardOut := getRoundCard s.impact90

/-- Line 292: plus-minus per 90 card. -/
def pm90Card (s : PlayerCells) : CardOut := getRoundCard s.pm90

/-- Line 293: on-off difference card. -/
def onOffCard (s : PlayerCells) : CardOut := getRoundCard s.on_off_total

/-!
Per-match charts of the profile view, lines 295-453.
-/

/-- Pandas == between the name cell and the selected name: NaN on either
side compares false. -/
def eqNameCell (v sel : Option String) : Bool :=
  match v, sel with
  | some a, some b => a == b
  | _, _ => false

/-- Lines 304-306: the match rows of the selected player, by exact name
equality against the year-and-team-filtered match dataset. -/
def playerMatchRows (filtered_players : PlayersFrame) (player_name : Option String) :
    List PRow :=
  filtered_players.rows.filter fun r => eqNameCell r.name player_name

/-- Ascending order on the chronological sort key, NaN last (sort_values). -/
def dtLe (a b : PRow) : Bool :=
  match a.match_start_datetime, b.match_start_datetime with
  | some x, some y => decide (x ≤ y)
  | some _, none => true
  | none, some _ => false
  | none, none => true

/-- Line 308 and lines 359-361: the player rows sorted chronologically. -/
def sortedMatches (filtered_players : PlayersFrame) (player_name : Option String) :
    List PRow :=
  sortLe dtLe (playerMatchRows filtered_players player_name)

/-- What a per-match chart section renders: a chart, an informational
message, or nothing at all. -/
inductive RenderOut where
  | chart
  | info
  | blank
deriving DecidableEq

/-- Lines 315-349: the match usage chart, with an informational message on
an empty row set. -/
def matchUsageChart (filtered_players : PlayersFrame) (player_name : Option String) :
    RenderOut :=
  if 0 < (sortedMatches filtered_players player_name).length then .chart else .info

/-- Lines 363-399: the match impact chart, with an informational message on
an empty row set. -/
def matchImpactChart (filtered_players : PlayersFrame) (player_name : Option String) :
    RenderOut :=
  if 0 < (sortedMatches filtered_players player_name).length then .chart else .info

/-- Lines 416-427: the offensive impact chart; the if has no else branch, so
an empty row set renders nothing. -/
def offensiveChart (filtered_players : PlayersFrame) (player_name : Option String) :
    RenderOut :=
  if 0 < (sortedMatches filtered_players player_name).length then .chart else .blank

/-- Lines 442-453: the defensive impact chart; the if has no else branch, so
an empty row set renders nothing. -/
def defensiveChart (filtered_players : PlayersFrame) (player_name : Option String) :
    RenderOut :=
  if 0 < (sortedMatches filtered_players player_name).length then .chart else .blank

/-!
Concrete inputs used by the counterexamples and witnesses below.
-/

/-- A summary frame whose single row has an undefined (NaN) minuter cell. -/
def dfC1 : SummaryFrame := { rows := [{ name := some "NoMin" }] }

/-- An empty match frame. -/
def pC1 : PlayersFrame := { rows := [] }

/-- A summary frame whose rows all carry a defined nonnegative minuter. -/
def dfC1w : SummaryFrame := { rows := [{ name := some "Anna", minuter := some 500 }] }

/-- A one-row match frame. -/
def pC1w : PlayersFrame := { rows := [{ name := some "Anna" }] }

/-- A summary frame with one NaN-minuter row next to a well-formed row. -/
def dfC10 : SummaryFrame :=
  { rows := [{ name := some "Good", minuter := some 500 },
             { name := some "Bad", minuter := none }] }

/-- An empty match frame for the minimum-minutes witness. -/
def pC10 : PlayersFrame := { rows := [] }

/-- The well-formed row of dfC10, which survives the filters. -/
def rC10 : SRow := { name := some "Good", minuter := some 500 }

/-- A selected player row whose minutes and matches cells are NaN. -/
def sC4 : PlayerCells := { minuter := .nan, matcher := .nan }

/-- A match frame with no row for the player named Zoe. -/
def pC5 : PlayersFrame := { rows := [{ name := some "Anna" }] }

/-- Three matches of one player with metric values 1, 3, 5 and minutes
30, 60, 90 (testable property 6 of the spec). -/
def c7rows : List PRow :=
  [{ name := some "A", impact_combo90 := some 1, minutes_played := some 30 },
   { name := some "A", impact_combo90 := some 3, minutes_played := some 60 },
   { name := some "A", impact_combo90 := some 5, minutes_played := some 90 }]

/-- A single match of one player with a defined metric value and 300 minutes. -/
def c6rows : List PRow :=
  [{ name := some "Solo", impact_combo90 := some 1, minutes_played := some 300 }]

/-- A filtered roster of one name: non-empty, yet shorter than 7. -/
def dfC8 : SummaryFrame := { rows := [{ name := some "Anna" }] }

/-- A filtered roster of seven names. -/
def dfC8w : SummaryFrame :=
  { rows := [{ name := some "Gun" }, { name := some "Bo" }, { name := some "Eva" },
             { name := some "Alf" }, { name := some "Dag" }, { name := some "Cia" },
             { name := some "Fia" }] }

/-!
Helper lemmas.
-/

theorem length_insertLe {α : Type} (le : α → α → Bool) (a : α) (l : List α) :
    (insertLe le a l).length = l.length + 1 := by
  induction l with
  | nil => rfl
  | cons b t ih =>
    simp only [insertLe]
    split
    · simp
    · simp [ih]

theorem length_sortLe {α : Type} (le : α → α → Bool) (l : List α) :
    (sortLe le l).length = l.length := by
  induction l with
  | nil => rfl
  | cons a t ih => simp [sortLe, length_insertLe, ih]

theorem hasMinuter_ite (c : Prop) [Decidable c] (f : SummaryFrame) (p : SRow → Bool) :
    (if c then f.filterRows p else f).hasMinuter = f.hasMinuter := by
  split <;> rfl

theorem round2_zero : round2 0 = 0 := by norm_num [round2, roundHE]

/-!
Claim theorems.
-/

/-- Claim C1, counterexample: with empty season and team selections and all
defaults (FilterState default literal), the filtered pair is not the input
pair, because the minimum-minutes filter at threshold 0 drops the row whose
minuter cell is NaN. -/
theorem filter_passthrough_cex :
    ¬((applyFilters dfC1 pC1 {}).1 = dfC1 ∧ (applyFilters dfC1 pC1 {}).2 = pC1) := by
  decide

/-- Claim C1, amended: with empty season and team selections, empty name
search, position All and minimum minutes 0, the filtered match dataset equals
its input, and the filtered summary dataset equals its input provided every
summary row carries a defined nonnegative minuter value. -/
theorem filter_passthrough_amended (df : SummaryFrame) (players_enriched : PlayersFrame)
    (fs : FilterState)
    (hy : fs.selected_years = []) (ht : fs.selected_teams = [])
    (hn : fs.name_search = "") (hp : fs.position_filter = "All")
    (hm : fs.min_minutes = 0)
    (hrow : ∀ r ∈ df.rows, ∃ q, r.minuter = some q ∧ 0 ≤ q) :
    applyFilters df players_enriched fs = (df, players_enriched) := by
  have hfilter : df.rows.filter (fun r => minuterGe r.minuter fs.min_minutes) = df.rows := by
    apply List.filter_eq_self.mpr
    intro r hr
    obtain ⟨q, hq, hq0⟩ := hrow r hr
    simp [minuterGe, hq, hm, hq0]
  simp [applyFilters, hy, ht, hn, hp, SummaryFrame.filterRows, hfilter]

/-- Claim C1, witness: the amended pass-through at a concrete well-formed pair. -/
theorem filter_passthrough_witness :
    applyFilters dfC1w pC1w {} = (dfC1w, pC1w) :=
  filter_passthrough_amended dfC1w pC1w {} rfl rfl rfl rfl rfl
    (by intro r hr; simp [dfC1w] at hr; subst hr; exact ⟨500, rfl, by norm_num⟩)

/-- Claim C2: after normalization, a match dataset that lacked impact90 has
every row with impact90 equal to plus_minus_per90, a summary dataset that
lacked it has every row with impact90 equal to pm90, and a dataset that
already had the column is unchanged. -/
theorem impact90_fallback (players_enriched : PlayersFrame) (df : SummaryFrame) :
    (players_enriched.hasImpact90 = false →
      ∀ r ∈ (normalizePlayers players_enriched).rows, r.impact90 = r.plus_minus_per90) ∧
    (df.hasImpact90 = false →
      ∀ r ∈ (normalizeSummary df).rows, r.impact90 = r.pm90) ∧
    (players_enriched.hasImpact90 = true →
      normalizePlayers players_enriched = players_enriched) ∧
    (df.hasImpact90 = true → normalizeSummary df = df) := by
  refine ⟨?_, ?_, ?_, ?_⟩
  · intro h r hr
    simp [normalizePlayers, h] at hr
    obtain ⟨s, hs, rfl⟩ := hr
    rfl
  · intro h r hr
    simp [normalizeSummary, h] at hr
    obtain ⟨s, hs, rfl⟩ := hr
    rfl
  · intro h
    simp [normalizePlayers, h]
  · intro h
    simp [normalizeSummary, h]

/-- Claim C3: the filtered match dataset produced by the engine equals the
function of the season and team selections alone, applied with the same
selections the summary side reads, so it is independent of the name search,
the position choice and the minimum-minutes threshold. -/
theorem players_filter_uses_only_season_team (df : SummaryFrame)
    (players_enriched : PlayersFrame) (fs : FilterState) :
    (applyFilters df players_enriched fs).2 =
      filterPlayersYearTeam df players_enriched fs.selected_years fs.selected_teams := rfl

/-- Claim C4, counterexample: the minutes and matches cards raise on a NaN
cell instead of showing a placeholder. -/
theorem metric_cards_cex :
    minutesCard sC4 = .raised ∧ matchesCard sC4 = .raised := ⟨rfl, rfl⟩

/-- Claim C4, amended: every guarded card never raises — age and market value
show the dash placeholder exactly on a missing value, the get-with-default
cards fall back to 0 on an absent column — while the minutes and matches
cards raise exactly when their cell is absent or NaN. -/
theorem metric_cards_amended (s : PlayerCells) :
    teamCard s ≠ .raised ∧ positionCard s ≠ .raised ∧
    ageCard s ≠ .raised ∧ marketValueCard s ≠ .raised ∧
    usageRateCard s ≠ .raised ∧ starterRateCard s ≠ .raised ∧
    impact90Card s ≠ .raised ∧ pm90Card s ≠ .raised ∧ onOffCard s ≠ .raised ∧
    (ageCard s = .shown .dash ↔ (s.alder = .absent ∨ s.alder = .nan)) ∧
    (marketValueCard s = .shown .dash ↔ (s.market_value = .absent ∨ s.market_value = .nan)) ∧
    getRoundCard .absent = .shown (.ratv 0) ∧
    (minutesCard s = .raised ↔ (s.minuter = .absent ∨ s.minuter = .nan)) ∧
    (matchesCard s = .raised ↔ (s.matcher = .absent ∨ s.matcher = .nan)) := by
  refine ⟨?_, ?_, ?_, ?_, ?_, ?_, ?_, ?_, ?_, ?_, ?_, ?_, ?_, ?_⟩
  · cases h : s.team <;> simp [teamCard, h]
  · cases h : s.position <;> simp [positionCard, h]
  · cases h : s.alder <;> simp [ageCard, h]
  · cases h : s.market_value <;> simp [marketValueCard, h]
  · cases h : s.usage_rate <;> simp [usageRateCard, getRoundCard, h]
  · cases h : s.starter_rate <;> simp [starterRateCard, getRoundCard, h]
  · cases h : s.impact90 <;> simp [impact90Card, getRoundCard, h]
  · cases h : s.pm90 <;> simp [pm90Card, getRoundCard, h]
  · cases h : s.on_off_total <;> simp [onOffCard, getRoundCard, h]
  · cases h : s.alder <;> simp [ageCard, h]
  · cases h : s.market_value <;> simp [marketValueCard, h]
  · simp [getRoundCard, round2_zero]
  · cases h : s.minuter <;> simp [minutesCard, h]
  · cases h : s.matcher <;> simp [matchesCard, h]

/-- Claim C5, counterexample: a player with zero qualifying match rows gets
no informational placeholder from the offensive and defensive charts — they
render nothing at all. -/
theorem charts_placeholder_cex :
    playerMatchRows pC5 (some "Zoe") = [] ∧
    offensiveChart pC5 (some "Zoe") = .blank ∧ defensiveChart pC5 (some "Zoe") = .blank ∧
    offensiveChart pC5 (some "Zoe") ≠ .info ∧ defensiveChart pC5 (some "Zoe") ≠ .info := by
  decide

/-- Claim C5, amended: the match-usage and match-impact charts show the
informational placeholder exactly on zero qualifying rows, while the
offensive and defensive charts render nothing on zero rows and never show an
informational placeholder. -/
theorem charts_placeholder_amended (filtered_players : PlayersFrame)
    (player_name : Option String) :
    (matchUsageChart filtered_players player_name = .info ↔
      playerMatchRows filtered_players player_name = []) ∧
    (matchImpactChart filtered_players player_name = .info ↔
      playerMatchRows filtered_players player_name = []) ∧
    (offensiveChart filtered_players player_name = .blank ↔
      playerMatchRows filtered_players player_name = []) ∧
    (defensiveChart filtered_players player_name = .blank ↔
      playerMatchRows filtered_players player_name = []) ∧
    offensiveChart filtered_players player_name ≠ .info ∧
    defensiveChart filtered_players player_name ≠ .info := by
  by_cases h : playerMatchRows filtered_players player_name = []
  · simp [matchUsageChart, matchImpactChart, offensiveChart, defensiveChart,
      sortedMatches, h, sortLe]
  · have hpos : 0 < (sortedMatches filtered_players player_name).length := by
      rw [sortedMatches, length_sortLe]
      exact List.length_pos.mpr h
    simp [matchUsageChart, matchImpactChart, offensiveChart, defensiveChart, hpos, h]

/-- Claim C6, counterexample: a single-match player with a defined metric
value and enough minutes stays in the scatter set although the standard
deviation of the sample is undefined. -/
theorem scatter_single_match_cex :
    (impactAgg PRow.impact_combo90 c6rows "Solo").impact_var = none ∧
    impactAgg PRow.impact_combo90 c6rows "Solo" ∈ scatterRows PRow.impact_combo90 c6rows 300 := by
  constructor
  · norm_num [impactAgg, c6rows, List.filter, List.filterMap]
  · norm_num [scatterRows, impact_summary, impactAgg, c6rows, List.filter,
      List.filterMap, List.dedup, sortLe, insertLe]

/-- Claim C6, amended: membership in the scatter set is decided exactly by
the total-minutes threshold and a defined mean; an undefined standard
deviation by itself excludes nobody. -/
theorem scatter_exclusion_amended (metric : PRow → Option ℚ) (rows : List PRow)
    (thr : ℕ) (a : AggRow) :
    a ∈ scatterRows metric rows thr ↔
      a ∈ impact_summary metric rows ∧ (thr : ℚ) ≤ a.minutes_total ∧ a.impact_mean ≠ none := by
  simp [scatterRows, List.mem_filter, Option.isSome_iff_ne_none, and_assoc]

/-- Claim C7: for metric values 1, 3, 5 over minutes 30, 60, 90 the
aggregation yields mean 3, sample variance 4 (standard deviation 2), count 3
and total minutes 180; the player is excluded from the scatter set at
threshold 200 and included at threshold 100. -/
theorem impact_consistency_values :
    (impactAgg PRow.impact_combo90 c7rows "A").impact_mean = some 3 ∧
    (impactAgg PRow.impact_combo90 c7rows "A").impact_var = some 4 ∧
    Real.sqrt (((impactAgg PRow.impact_combo90 c7rows "A").impact_var.getD 0 : ℚ) : ℝ) = 2 ∧
    (impactAgg PRow.impact_combo90 c7rows "A").matches_used = 3 ∧
    (impactAgg PRow.impact_combo90 c7rows "A").minutes_total = 180 ∧
    impactAgg PRow.impact_combo90 c7rows "A" ∉ scatterRows PRow.impact_combo90 c7rows 200 ∧
    impactAgg PRow.impact_combo90 c7rows "A" ∈ scatterRows PRow.impact_combo90 c7rows 100 := by
  refine ⟨?_, ?_, ?_, ?_, ?_, ?_, ?_⟩
  · norm_num [impactAgg, c7rows, List.filter, List.filterMap]
  · norm_num [impactAgg, c7rows, List.filter, List.filterMap]
  · have h : (impactAgg PRow.impact_combo90 c7rows "A").impact_var = some 4 := by
      norm_num [impactAgg, c7rows, List.filter, List.filterMap]
    rw [h]
    have h4 : (((some (4:ℚ)).getD 0 : ℚ) : ℝ) = 2 ^ 2 := by norm_num
    rw [h4, Real.sqrt_sq (by norm_num : (0:ℝ) ≤ 2)]
  · norm_num [impactAgg, c7rows, List.filter, List.filterMap]
  · norm_num [impactAgg, c7rows, List.filter, List.filterMap]
  · norm_num [scatterRows, impact_summary, impactAgg, c7rows, List.filter,
      List.filterMap, List.dedup, sortLe, insertLe]
  · norm_num [scatterRows, impact_summary, impactAgg, c7rows, List.filter,
      List.filterMap, List.dedup, sortLe, insertLe]

/-- Claim C8, counterexample: a non-empty filtered roster of one name makes
the profile selection fail, because the fixed default index 6 is outside the
option list. -/
theorem profile_default_index_cex :
    0 < (playerNames dfC8).length ∧ profileSelect dfC8 = .raised := by decide

/-- Claim C8, amended: whenever the filtered roster has at least 7 names the
fixed default index refers to an existing element and selection succeeds with
a member of the sorted name list. -/
theorem profile_default_index_amended (filtered_df : SummaryFrame)
    (h : 7 ≤ (playerNames filtered_df).length) :
    ∃ nm, profileSelect filtered_df = .profileFor nm ∧ nm ∈ playerNames filtered_df := by
  have hne : ¬(playerNames filtered_df).length = 0 := by omega
  have h6 : 6 < (playerNames filtered_df).length := by omega
  refine ⟨(playerNames filtered_df).get ⟨6, h6⟩, ?_, List.get_mem _ 6 h6⟩
  simp only [profileSelect, selectbox]
  rw [if_neg hne, dif_pos h6]

/-- Claim C8, witness: the amended selection at a concrete seven-name roster. -/
theorem profile_default_index_witness :
    7 ≤ (playerNames dfC8w).length ∧
      ∃ nm, profileSelect dfC8w = .profileFor nm ∧ nm ∈ playerNames dfC8w :=
  ⟨by decide, profile_default_index_amended dfC8w (by decide)⟩

/-- Claim C9, counterexample: on a schema holding all twelve summary default
columns the two resolved default lists differ. -/
theorem default_cols_cex :
    availableCols default_cols default_cols ≠ availableCols default_cols_pc default_cols := by
  decide

/-- Claim C9, amended: both tables resolve defaults by the same
intersect-with-schema rule but over default lists differing in one entry, so
the resolved lists coincide exactly for schemas containing neither
impact_combo90 nor impact90. -/
theorem default_cols_amended (cols : List String) :
    availableCols default_cols cols = availableCols default_cols_pc cols ↔
      ("impact_combo90" ∉ cols ∧ "impact90" ∉ cols) := by
  have h1 : default_cols
      = ["name", "team", "position", "year", "minuter", "matcher",
         "usage_rate", "starter_rate"] ++ ["impact_combo90"] ++ ["pm90", "gf90", "ga90"] := rfl
  have h2 : default_cols_pc
      = ["name", "team", "position", "year", "minuter", "matcher",
         "usage_rate", "starter_rate"] ++ ["impact90"] ++ ["pm90", "gf90", "ga90"] := rfl
  rw [availableCols, availableCols, h1, h2, List.filter_append, List.filter_append,
    List.filter_append, List.filter_append, List.append_left_inj, List.append_right_inj]
  by_cases hc : "impact_combo90" ∈ cols <;> by_cases hi : "impact90" ∈ cols <;>
    simp [List.filter, hc, hi]

/-- Claim C10: when the summary dataset has the minuter column, the
minimum-minutes predicate rejects an undefined value at every threshold, and
every row of the filtered summary dataset has a defined minuter value. -/
theorem min_minutes_excludes_undefined (df : SummaryFrame) (players_enriched : PlayersFrame)
    (fs : FilterState) (h : df.hasMinuter = true) :
    (∀ m : ℕ, minuterGe none m = false) ∧
      ∀ r ∈ (applyFilters df players_enriched fs).1.rows, r.minuter ≠ none := by
  refine ⟨fun _ => rfl, ?_⟩
  intro r hr
  simp only [applyFilters] at hr
  simp only [hasMinuter_ite, h, eq_self_iff_true, if_true] at hr
  simp only [SummaryFrame.filterRows, List.mem_filter] at hr
  obtain ⟨-, hpred⟩ := hr
  cases hq : r.minuter with
  | none => rw [hq] at hpred; exact absurd hpred (by simp [minuterGe])
  | some q => simp [hq]

/-- Claim C10, witness: the exclusion applied to a concrete frame holding a
NaN-minuter row next to a well-formed row. -/
theorem min_minutes_excludes_undefined_witness :
    dfC10.hasMinuter = true ∧ rC10.minuter ≠ none :=
  ⟨rfl, (min_minutes_excludes_undefined dfC10 pC10 {} rfl).2 rC10 (by decide)⟩

end PlayerEval
